import Mathlib

/-!
Verification of the `wstd` single-threaded reactor/executor and its
time/stream combinators, shallowly embedded from the Rust sources:

* `src/runtime/reactor.rs` — `Reactor`, `AsyncPollable`, `WaitFor`
* `src/runtime/block_on.rs` — `block_on`, `RootWaker`
* `src/io/streams.rs` — `AsyncInputStream::read`, `AsyncOutputStream::write`
* `src/time/future/timeout.rs` — `Timeout::poll`
* `src/future/delay.rs` — `Delay::poll`
* `src/time/stream/{debounce,throttle,sample,buffer,park}.rs`
* `src/task/sleep.rs` and `futures-time/src/task/sleep.rs` — `Sleep`
* `futures-time/src/stream/interval.rs` — `Interval`

Rust `Poll` is embedded as an explicit `Poll` type; panics (`panic!`,
`assert!`, the trap of `wasi::io::poll::poll` aside) are embedded as
`Except Unit`, with `.error ()` standing for an unwinding panic.
-/

namespace Wstd

/-- Embeds `core::task::Poll`. -/
inductive Poll (α : Type) where
  | ready (v : α)
  | pending
deriving DecidableEq, Repr

/-- Embeds `Waitee` from `src/runtime/reactor.rs`: the `EventKey` of the
registration (slab index of the `Pollable`) together with the process-wide
unique counter allocated by `AsyncPollable::wait_for`. -/
structure Waitee where
  key : Nat
  unique : Nat
deriving DecidableEq, Repr

/-- The reactor's `wakers: HashMap<Waitee, Waker>` field, embedded as an
association list from `Waitee` to an abstract waker identifier. -/
abbrev WakerMap := List (Waitee × Nat)

/-- `HashMap::insert`: stores `wk` under `w`, replacing any previous entry. -/
def WakerMap.insertW (m : WakerMap) (w : Waitee) (wk : Nat) : WakerMap :=
  (w, wk) :: m.filter (fun p => p.1 != w)

/-- `HashMap::remove`: drops the entry keyed by `w` (used by
`Reactor::deregister_waitee`). -/
def WakerMap.removeW (m : WakerMap) (w : Waitee) : WakerMap :=
  m.filter (fun p => p.1 != w)

/-- `HashMap::contains_key` on the embedded waker map. -/
def WakerMap.containsW (m : WakerMap) (w : Waitee) : Bool :=
  m.any (fun p => p.1 == w)

/-- Embeds `Reactor::ready` (`src/runtime/reactor.rs:187-198`): checks the
underlying `Pollable`'s readiness directly (passed in as `isReady`, the value
the host returns from `Pollable::ready()` at this instant); if not ready it
stores a clone of the waker keyed by the `Waitee`.  Returns the readiness
flag together with the updated waker map.  Note that on the ready path the
map is returned unchanged. -/
def Reactor.ready (m : WakerMap) (w : Waitee) (waker : Nat) (isReady : Bool) :
    Bool × WakerMap :=
  if isReady then (true, m) else (false, m.insertW w waker)

/-- `Reactor::deregister_waitee`. -/
def Reactor.deregister_waitee (m : WakerMap) (w : Waitee) : WakerMap :=
  m.removeW w

/-- Embeds the `WaitFor` future's owned state: its `Waitee` plus the
`needs_deregistration` flag. -/
structure WaitFor where
  waitee : Waitee
  needs_deregistration : Bool
deriving DecidableEq, Repr

/-- Embeds `<WaitFor as Future>::poll` (`src/runtime/reactor.rs:73-81`):
calls `Reactor::ready`; on `true` returns `Ready(())`, otherwise sets
`needs_deregistration` and returns `Pending`. -/
def WaitFor.poll (wf : WaitFor) (m : WakerMap) (waker : Nat) (isReady : Bool) :
    Poll Unit × WaitFor × WakerMap :=
  let r := Reactor.ready m wf.waitee waker isReady
  if r.1 then (.ready (), wf, r.2)
  else (.pending, { wf with needs_deregistration := true }, r.2)

/-- Embeds `<WaitFor as Drop>::drop` (`src/runtime/reactor.rs:83-89`):
deregisters the waitee iff `needs_deregistration` was set. -/
def WaitFor.drop (wf : WaitFor) (m : WakerMap) : WakerMap :=
  if wf.needs_deregistration then Reactor.deregister_waitee m wf.waitee else m

/-- Outcome of `Reactor::block_on_pollables` (`src/runtime/reactor.rs:130-168`). -/
inductive BlockOutcome where
  /-- The `debug_assert_ne!(targets.len(), 0, ...)` fired. -/
  | panicEmptyAssert
  /-- `wasi::io::poll::poll` was issued on the listed targets (the
  registration key of each pending waitee, in map order). -/
  | hostPoll (targets : List Nat)
deriving DecidableEq, Repr

/-- Embeds `Reactor::block_on_pollables`: collects one target pollable per
pending waitee, then — only when `debug_assertions` is compiled in — asserts
the target list is non-empty, and finally issues the host's blocking batch
poll on the collected targets. -/
def Reactor.block_on_pollables (debugAssertions : Bool) (m : WakerMap) :
    BlockOutcome :=
  let targets := m.map (fun p => p.1.key)
  if debugAssertions && targets.length == 0 then .panicEmptyAssert
  else .hostPoll targets

/-- How the future driven by `block_on` behaves: it either runs to
completion with a value, or panics at some poll. -/
inductive FutureRun (α : Type) where
  | completes (v : α)
  | panics
deriving DecidableEq, Repr

/-- How a `block_on` call terminates. -/
inductive RunOutcome (α : Type) where
  /-- Normal return with the future's output. -/
  | returns (v : α)
  /-- The nesting check `panic!("cannot wstd::runtime::block_on inside an existing block_on!")`. -/
  | nestedPanic
  /-- The driven future panicked and the panic unwound out of `block_on`. -/
  | futurePanic
deriving DecidableEq, Repr

/-- Embeds the slot bookkeeping of `block_on` (`src/runtime/block_on.rs:14-49`)
with respect to the thread-local `REACTOR` slot.  `slotBefore` is the slot
content on entry, `newReactor` identifies the freshly constructed reactor.
The code executes `REACTOR.replace(Some(reactor))`, panics if the previous
content was `Some`, then drives the future; `REACTOR.replace(None)` is only
reached on the normal-return path, so a panic unwinding out of the future
leaves the slot holding the new reactor. -/
def block_on (slotBefore : Option Nat) (newReactor : Nat) (fut : FutureRun α) :
    RunOutcome α × Option Nat :=
  match slotBefore with
  | some _ => (.nestedPanic, some newReactor)
  | none =>
    match fut with
    | .completes v => (.returns v, none)
    | .panics => (.futurePanic, some newReactor)

/-! ## Streaming I/O adapters (`src/io/streams.rs`) -/

/-- The error side of `std::io::Result` as produced by the stream adapters:
either `std::io::Error::other(err.to_debug_string())` (the debug string is
abstracted to a numeric identifier) or
`std::io::Error::from(std::io::ErrorKind::ConnectionReset)`. -/
inductive IOErr where
  | other (msg : Nat)
  | connectionReset
  | timedOut
deriving DecidableEq, Repr

/-- One host response to `InputStream::read` inside
`AsyncInputStream::read`'s loop: `Ok(bytes)`, `Err(StreamError::Closed)`, or
`Err(StreamError::LastOperationFailed(err))`. -/
inductive ReadEvent where
  | ok (bytes : List Nat)
  | closed
  | lastOpFailed (msg : Nat)
deriving DecidableEq, Repr

/-- Embeds the loop of `AsyncInputStream::read` (`src/io/streams.rs:35-58`).
`events` lists, in order, the host's response to each `self.stream.read(..)`
call (each loop iteration first awaits `self.ready()`, then reads once).
Returns the read outcome (`none` when `events` is exhausted while the loop
is still running) paired with the number of host read calls performed:

* `Ok` of an empty byte vector: try again (readiness is not a guarantee);
* `Ok` of data: break, copy into `buf`, return `Ok(len)`;
* `Err(Closed)`: end-of-stream, return `Ok(0)` (here `.ok []`);
* `Err(LastOperationFailed(e))`: return `Err(io::Error::other(..))`. -/
def AsyncInputStream.read : List ReadEvent → Option (Except IOErr (List Nat)) × Nat
  | [] => (none, 0)
  | .ok [] :: rest =>
    let r := AsyncInputStream.read rest
    (r.1, r.2 + 1)
  | .ok (b :: bs) :: _ => (some (.ok (b :: bs)), 1)
  | .closed :: _ => (some (.ok []), 1)
  | .lastOpFailed e :: _ => (some (.error (.other e)), 1)

/-- Host response to `OutputStream::check_write`. -/
inductive CheckWriteRes where
  | ok (budget : Nat)
  | closed
  | lastOpFailed (msg : Nat)
deriving DecidableEq, Repr

/-- Host response to `OutputStream::write`. -/
inductive WriteRes where
  | ok
  | closed
  | lastOpFailed (msg : Nat)
deriving DecidableEq, Repr

/-- One iteration's worth of host responses inside `AsyncOutputStream::write`:
the `check_write` result, and the `write` result consulted only when the
budget is positive. -/
structure WriteStep where
  check : CheckWriteRes
  write : WriteRes
deriving DecidableEq, Repr

/-- Embeds the loop of `AsyncOutputStream::write` (`src/io/streams.rs:107-136`)
over the host responses `steps` for a buffer of length `bufLen`:

* `check_write` gives `Ok(0)`: await readiness and loop;
* `check_write` gives `Ok(n)`, `n > 0`: write `min n bufLen` bytes; on
  `Ok(())` return that count, on `Err(Closed)` return a `ConnectionReset`
  error, on `Err(LastOperationFailed)` an `other` error;
* `check_write` gives `Err(Closed)`: `ConnectionReset` error;
* `check_write` gives `Err(LastOperationFailed)`: `other` error. -/
def AsyncOutputStream.write (bufLen : Nat) : List WriteStep → Option (Except IOErr Nat)
  | [] => none
  | ⟨.ok 0, _⟩ :: rest => AsyncOutputStream.write bufLen rest
  | ⟨.ok (b + 1), w⟩ :: _ =>
    match w with
    | .ok => some (.ok (min (b + 1) bufLen))
    | .closed => some (.error .connectionReset)
    | .lastOpFailed e => some (.error (.other e))
  | ⟨.closed, _⟩ :: _ => some (.error .connectionReset)
  | ⟨.lastOpFailed e, _⟩ :: _ => some (.error (.other e))

/-- The host read responses that make `AsyncInputStream::read`'s loop
terminate with an error: the first response that is not an empty `Ok` is a
`LastOperationFailed`. -/
def readEndsInFailure : List ReadEvent → Bool
  | [] => false
  | .ok [] :: rest => readEndsInFailure rest
  | .ok (_ :: _) :: _ => false
  | .closed :: _ => false
  | .lastOpFailed _ :: _ => true

/-- Count of leading empty-`Ok` read responses (the retried iterations). -/
def leadingEmptyReads : List ReadEvent → Nat
  | .ok [] :: rest => leadingEmptyReads rest + 1
  | _ => 0

/-! ## Timers and time combinators

Time is modelled as a discrete clock `t : Nat` (milliseconds).  A WASI
deadline pollable is ready exactly when the clock has reached its deadline,
and `Instant::now()` evaluates to the current clock value. -/

/-- Embeds `Sleep` (`src/task/sleep.rs` / `futures-time/src/task/sleep.rs`):
a timer with an absolute `deadline` plus the `completed` flag. -/
structure Sleep where
  deadline : Nat
  completed : Bool
deriving DecidableEq, Repr

/-- Embeds `<Sleep as Future>::poll` at clock time `t`:
`assert!(!self.completed, "future polled after completing")`, then the
underlying timer pollable is ready iff `deadline ≤ t`, yielding
`Instant::now()` (= `t`) and setting `completed`. -/
def Sleep.poll (s : Sleep) (t : Nat) : Except Unit (Poll Nat × Sleep) :=
  if s.completed then .error ()
  else if s.deadline ≤ t then .ok (.ready t, { s with completed := true })
  else .ok (.pending, s)

/-- Embeds `<Sleep as Timer>::reset_timer`
(`futures-time/src/task/sleep.rs:49-55`): the timer is re-armed to
`Instant::now() + dur` and `completed` is cleared.  `newDeadline` is the
already-computed absolute deadline `t + dur`. -/
def Sleep.reset_timer (_ : Sleep) (newDeadline : Nat) : Sleep :=
  { deadline := newDeadline, completed := false }

/-- The `State` enum of `Delay` (`src/future/delay.rs:28-32`). -/
inductive DelayState where
  | started
  | pollFuture
  | completed
deriving DecidableEq, Repr

/-- Embeds `<Delay as Future>::poll` (`src/future/delay.rs:47-63`), with the
results of polling the deadline future and the inner future supplied as
`deadlineP` and `innerP` (the deadline is only consulted in state
`Started`, the inner future only once the deadline has resolved).  In state
`Completed` the source runs `panic!("future polled after completing")`,
embedded as `.error ()`. -/
def Delay.poll (st : DelayState) (deadlineP : Poll Unit) (innerP : Poll α) :
    Except Unit (Poll α × DelayState) :=
  match st with
  | .started =>
    match deadlineP with
    | .pending => .ok (.pending, .started)
    | .ready _ =>
      match innerP with
      | .pending => .ok (.pending, .pollFuture)
      | .ready v => .ok (.ready v, .completed)
  | .pollFuture =>
    match innerP with
    | .pending => .ok (.pending, .pollFuture)
    | .ready v => .ok (.ready v, .completed)
  | .completed => .error ()

/-- Embeds `<Timeout as Future>::poll` (`src/time/future/timeout.rs:41-59`):
`assert!(!*this.completed, "future polled after completing")`, then the
inner future is polled first; only if it is pending is the deadline polled.
`deadlineP` is the result the deadline future would report at this poll. -/
def Timeout.poll (completed : Bool) (innerP : Poll α) (deadlineP : Poll Unit) :
    Except Unit (Poll (Except IOErr α) × Bool) :=
  if completed then .error ()
  else
    match innerP with
    | .ready v => .ok (.ready (.ok v), true)
    | .pending =>
      match deadlineP with
      | .ready _ => .ok (.ready (.error .timedOut), true)
      | .pending => .ok (.pending, false)

/-- State of the composed future `future::ready(value).delay(a).timeout(b)`:
the inner `Delay` wraps an immediately-ready future producing `value` and a
`Sleep` for duration `a`; the `Timeout` holds a `Sleep` for duration `b`
plus its `completed` flag. -/
structure TimeoutDelay where
  value : Nat
  delaySleep : Sleep
  delayState : DelayState
  timeoutSleep : Sleep
  completed : Bool
deriving DecidableEq, Repr

/-- One poll of the inner `Delay(ready(value), sleep)` at clock `t`,
threading the `Sleep` state: in state `Started` the deadline `Sleep` is
polled (per `Delay::poll`), in the other states it is not touched. -/
def TimeoutDelay.pollDelay (value : Nat) (sl : Sleep) (st : DelayState) (t : Nat) :
    Except Unit (Poll Nat × Sleep × DelayState) :=
  match st with
  | .started =>
    match Sleep.poll sl t with
    | .error e => .error e
    | .ok (.pending, sl1) =>
      match Delay.poll .started .pending (.ready value) with
      | .error e => .error e
      | .ok (p, st1) => .ok (p, sl1, st1)
    | .ok (.ready _, sl1) =>
      match Delay.poll .started (.ready ()) (.ready value) with
      | .error e => .error e
      | .ok (p, st1) => .ok (p, sl1, st1)
  | st =>
    match Delay.poll st .pending (.ready value) with
    | .error e => .error e
    | .ok (p, st1) => .ok (p, sl, st1)

/-- One poll of `Timeout(Delay(ready(value), a), b)` at clock `t`, composed
from `Timeout::poll` with the inner future's poll threaded lazily: the
deadline `Sleep` is polled only when the inner `Delay` reported pending,
exactly as in the source's control flow. -/
def TimeoutDelay.poll (s : TimeoutDelay) (t : Nat) :
    Except Unit (Poll (Except IOErr Nat) × TimeoutDelay) :=
  if s.completed then .error ()
  else
    match TimeoutDelay.pollDelay s.value s.delaySleep s.delayState t with
    | .error e => .error e
    | .ok (.ready v, sl1, st1) =>
      .ok (.ready (.ok v),
        { s with delaySleep := sl1, delayState := st1, completed := true })
    | .ok (.pending, sl1, st1) =>
      match Sleep.poll s.timeoutSleep t with
      | .error e => .error e
      | .ok (.ready _, ts1) =>
        .ok (.ready (.error .timedOut),
          { s with delaySleep := sl1, delayState := st1, timeoutSleep := ts1,
                   completed := true })
      | .ok (.pending, ts1) =>
        .ok (.pending,
          { s with delaySleep := sl1, delayState := st1, timeoutSleep := ts1 })

/-- The initial state of `future::ready(value).delay(a).timeout(b)` built at
clock `0`: both sleeps are fresh with absolute deadlines `a` and `b`. -/
def TimeoutDelay.init (value a b : Nat) : TimeoutDelay :=
  { value := value
    delaySleep := { deadline := a, completed := false }
    delayState := .started
    timeoutSleep := { deadline := b, completed := false }
    completed := false }

/-- Runs `future::ready(value).delay(a).timeout(b)` under the reactor's
schedule: the executor polls once at clock `0`; if the future is pending it
blocks on the registered deadline pollables, which wake it at the earliest
armed deadline `min a b`, where it polls again.  Returns `none` if either
poll panicked or the second poll is still pending (neither occurs). -/
def TimeoutDelay.run (value a b : Nat) : Option (Except IOErr Nat) :=
  match TimeoutDelay.poll (TimeoutDelay.init value a b) 0 with
  | .error _ => none
  | .ok (.ready r, _) => some r
  | .ok (.pending, s1) =>
    match TimeoutDelay.poll s1 (min a b) with
    | .error _ => none
    | .ok (.ready r, _) => some r
    | .ok (.pending, _) => none

/-! ## Debounce (`src/time/stream/debounce.rs`) -/

/-- The `State` enum of `Debounce` (`src/time/stream/debounce.rs:32-42`). -/
inductive DebounceState where
  | streaming
  | finalItem
  | sendingNone
  | finished
deriving DecidableEq, Repr

/-- The owned state of `Debounce`: the buffered `slot`, the deadline timer
(a `Sleep`, via the `Timer` trait), and the phase. -/
structure Debounce (α : Type) where
  slot : Option α
  deadline : Sleep
  state : DebounceState
deriving DecidableEq, Repr

/-- The stream-polling phase of `<Debounce as Stream>::poll_next`
(`src/time/stream/debounce.rs:66-78`): only in state `Streaming` is the
source polled (result supplied as `srcP`); an item fills the slot and
resets the deadline timer to `Instant::now() + window` (= `t + window`);
end-of-stream moves to `FinalItem` or `SendingNone` depending on the slot. -/
def Debounce.pollStream (window t : Nat) (d : Debounce α) (srcP : Poll (Option α)) :
    Debounce α :=
  match d.state with
  | .streaming =>
    match srcP with
    | .ready (some v) =>
      { d with slot := some v, deadline := d.deadline.reset_timer (t + window) }
    | .ready none =>
      { d with state := if d.slot.isSome then .finalItem else .sendingNone }
    | .pending => d
  | _ => d

/-- Embeds `<Debounce as Stream>::poll_next`
(`src/time/stream/debounce.rs:62-103`) at clock `t`: first the
stream-polling phase, then the timer handling.  In `Streaming` the deadline
is polled only while an item is buffered; `FinalItem` flushes the buffered
item once the timer fires; `SendingNone` yields the closing `None`;
`Finished` runs `panic!("stream polled after completion")` (`.error ()`). -/
def Debounce.poll_next (window t : Nat) (d : Debounce α) (srcP : Poll (Option α)) :
    Except Unit (Poll (Option α) × Debounce α) :=
  let d1 := Debounce.pollStream window t d srcP
  match d1.state with
  | .streaming =>
    if d1.slot.isSome then
      match Sleep.poll d1.deadline t with
      | .error e => .error e
      | .ok (.ready _, s1) => .ok (.ready d1.slot, { d1 with slot := none, deadline := s1 })
      | .ok (.pending, s1) => .ok (.pending, { d1 with deadline := s1 })
    else .ok (.pending, d1)
  | .finalItem =>
    match Sleep.poll d1.deadline t with
    | .error e => .error e
    | .ok (.ready _, s1) =>
      .ok (.ready d1.slot, { d1 with slot := none, deadline := s1, state := .sendingNone })
    | .ok (.pending, s1) => .ok (.pending, { d1 with deadline := s1 })
  | .sendingNone => .ok (.ready none, { d1 with state := .finished })
  | .finished => .error ()

/-- The source stream of the debounce calibration tests:
`interval(dur).take(n)` (`futures-time/src/stream/interval.rs` composed with
`futures-lite`'s `Take`).  `deadline` is the interval timer's absolute fire
time; `remaining` is the `take` budget. -/
structure IntervalTake where
  deadline : Nat
  remaining : Nat
deriving DecidableEq, Repr

/-- Embeds one `poll_next` of `interval(dur).take(..)` at clock `t`:
`Take` yields `None` once its budget is exhausted (without polling the
interval); otherwise the interval yields `Instant::now()` (= `t`) when its
timer has fired and re-arms the timer to `t + dur`. -/
def IntervalTake.poll_next (dur t : Nat) (s : IntervalTake) :
    Poll (Option Nat) × IntervalTake :=
  if s.remaining = 0 then (.ready none, s)
  else if s.deadline ≤ t then
    (.ready (some t), { deadline := t + dur, remaining := s.remaining - 1 })
  else (.pending, s)

/-- Drives `interval(dur).take(n).debounce(window)` to completion,
collecting the emitted items.  The consumer (`for_each`) polls again
immediately after every emitted item; after a pending poll the clock
advances by one tick (polling every tick is a legitimate schedule — timer
wakeups are a subset of the ticks, and extra polls are the tolerated
spurious wakeups).  `none` means the fuel ran out or a poll panicked. -/
def debounceRun (dur window : Nat) : Nat → Nat → IntervalTake → Debounce Nat →
    List Nat → Option (List Nat)
  | 0, _, _, _, _ => none
  | fuel + 1, t, src, d, acc =>
    let sp := IntervalTake.poll_next dur t src
    match Debounce.poll_next window t d sp.1 with
    | .error _ => none
    | .ok (.ready none, _) => some acc.reverse
    | .ok (.ready (some v), d1) => debounceRun dur window fuel t sp.2 d1 (v :: acc)
    | .ok (.pending, d1) => debounceRun dur window fuel (t + 1) sp.2 d1 acc

/-- `interval(dur).take(n).debounce(window)` as freshly constructed at clock
`0` and driven to completion: the interval timer first fires at `dur`, and
the debounce deadline `Sleep` is created as `sleep(window)`. -/
def debounceScenario (dur window n fuel : Nat) : Option (List Nat) :=
  debounceRun dur window fuel 0 { deadline := dur, remaining := n }
    { slot := none, deadline := { deadline := window, completed := false },
      state := .streaming } []

/-! ## Throttle, Sample, Buffer, Park

For these stream combinators, one invocation of `poll_next` polls the
source stream in a loop until it reports `Pending` (or ends).  The items
the source yields during that pass are supplied as the list `pass`, and
`ends` says whether the pass terminated with `Ready(None)` (otherwise
`Pending`).  The interval/control stream's poll result is supplied as a
`Poll` value. -/

/-- The `State` enum of `Throttle` (`src/time/stream/throttle.rs:38-46`),
with the per-window item count carried by `Streaming`. -/
inductive ThrottleState where
  | streaming (count : Nat)
  | streamDone
  | allDone
deriving DecidableEq, Repr

/-- The inner stream loop of `Throttle::poll_next`
(`src/time/stream/throttle.rs:60-74`): each yielded item lands in the slot
and bumps the count only while the count is below the budget. -/
def Throttle.streamPass (budget : Nat) (pass : List α) (acc : Option α × Nat) :
    Option α × Nat :=
  pass.foldl (fun acc v => if acc.2 < budget then (some v, acc.2 + 1) else acc) acc

/-- Embeds `<Throttle as Stream>::poll_next`
(`src/time/stream/throttle.rs:51-101`).  In `Streaming` the source is
drained into the slot (respecting the budget), then the interval is polled:
if it fired while still streaming the count resets to `0`.  A filled slot
is yielded, otherwise the poll is pending.  `StreamDone` yields the closing
`None` and moves to `AllDone`, where polling again runs
`panic!("stream polled after completion")`. -/
def Throttle.poll_next (budget : Nat) (st : ThrottleState) (pass : List α)
    (ends : Bool) (intervalP : Poll Unit) :
    Except Unit (Poll (Option α) × ThrottleState) :=
  match st with
  | .streaming count =>
    let acc := Throttle.streamPass budget pass (none, count)
    let st1 := if ends then ThrottleState.streamDone else ThrottleState.streaming acc.2
    let st2 :=
      match intervalP with
      | .ready _ =>
        match st1 with
        | .streaming _ => ThrottleState.streaming 0
        | other => other
      | .pending => st1
    match acc.1 with
    | some item => .ok (.ready (some item), st2)
    | none => .ok (.pending, st2)
  | .streamDone => .ok (.ready none, .allDone)
  | .allDone => .error ()

/-- The `State` enum of `Sample` (`src/time/stream/sample.rs:41-49`). -/
inductive SampleState where
  | streaming
  | streamDone
  | allDone
deriving DecidableEq, Repr

/-- Embeds `<Sample as Stream>::poll_next` (`src/time/stream/sample.rs:54-98`)
with the retained `slot` threaded explicitly.  In `Streaming` every item of
the pass overwrites the slot; then the interval is polled, and if it fired
the slot is taken and yielded (an empty slot leaves the poll pending).
`StreamDone` yields the closing `None` and moves to `AllDone`, where
polling again panics. -/
def Sample.poll_next (st : SampleState) (slot : Option α) (pass : List α)
    (ends : Bool) (intervalP : Poll Unit) :
    Except Unit (Poll (Option α) × SampleState × Option α) :=
  match st with
  | .streaming =>
    let slot1 := pass.foldl (fun _ v => some v) slot
    let st1 := if ends then SampleState.streamDone else SampleState.streaming
    match intervalP with
    | .ready _ =>
      match slot1 with
      | some item => .ok (.ready (some item), st1, none)
      | none => .ok (.pending, st1, none)
    | .pending => .ok (.pending, st1, slot1)
  | .streamDone => .ok (.ready none, .allDone, slot)
  | .allDone => .error ()

/-- The `State` enum of `Buffer` (`src/time/stream/buffer.rs:40-50`). -/
inductive BufferState where
  | streaming
  | streamDone
  | timerDone
  | allDone
deriving DecidableEq, Repr

/-- Embeds `<Buffer as Stream>::poll_next` (`src/time/stream/buffer.rs:55-99`)
with the item buffer `slot` threaded explicitly.  In `Streaming` the pass's
items are appended to the buffer, then the interval is polled; if it fired
the buffer is flushed (`mem::take`), moving to `TimerDone` when the source
had ended.  `StreamDone` flushes once more when the timer fires;
`TimerDone` yields the closing `None`; polling in `AllDone` panics. -/
def Buffer.poll_next (st : BufferState) (slot : List α) (pass : List α)
    (ends : Bool) (intervalP : Poll Unit) :
    Except Unit (Poll (Option (List α)) × BufferState × List α) :=
  match st with
  | .streaming =>
    let slot1 := slot ++ pass
    let st1 := if ends then BufferState.streamDone else BufferState.streaming
    match intervalP with
    | .pending => .ok (.pending, st1, slot1)
    | .ready _ =>
      let st2 := if ends then BufferState.timerDone else st1
      .ok (.ready (some slot1), st2, [])
  | .streamDone =>
    match intervalP with
    | .pending => .ok (.pending, .streamDone, slot)
    | .ready _ => .ok (.ready (some slot), .timerDone, [])
  | .timerDone => .ok (.ready none, .allDone, slot)
  | .allDone => .error ()

/-- The `Parker` control signals of `Park` (`src/channel`). -/
inductive Parker where
  | park
  | unpark
deriving DecidableEq, Repr

/-- The `State` enum of `Park` (`src/time/stream/park.rs:33-42`). -/
inductive ParkState where
  | active
  | suspended
  | noChannel
  | completed
deriving DecidableEq, Repr

/-- The `Active` arm of `Park::poll_next` (`src/time/stream/park.rs:74-86`):
a ready `Park` signal on the control stream suspends; otherwise the source
stream's result is forwarded, with `None` completing the stream. -/
def Park.pollActive (ctrlP : Poll (Option Parker)) (srcP : Poll (Option α)) :
    Poll (Option α) × ParkState :=
  match ctrlP with
  | .ready (some .park) => (.pending, .suspended)
  | _ =>
    match srcP with
    | .pending => (.pending, .active)
    | .ready (some v) => (.ready (some v), .active)
    | .ready none => (.ready none, .completed)

/-- The `NoChannel` arm of `Park::poll_next` (`src/time/stream/park.rs:87-93`). -/
def Park.pollNoChannel (srcP : Poll (Option α)) : Poll (Option α) × ParkState :=
  match srcP with
  | .pending => (.pending, .noChannel)
  | .ready (some v) => (.ready (some v), .noChannel)
  | .ready none => (.ready none, .completed)

/-- Embeds `<Park as Stream>::poll_next` (`src/time/stream/park.rs:65-97`).
The loop polls the control stream at most twice per invocation
(`ctrl1` for the first poll, `ctrl2` for a second poll after an `Unpark`
transitions `Suspended → Active`).  Polling in `Completed` runs
`panic!("future polled after completing")`. -/
def Park.poll_next (st : ParkState) (ctrl1 ctrl2 : Poll (Option Parker))
    (srcP : Poll (Option α)) : Except Unit (Poll (Option α) × ParkState) :=
  match st with
  | .suspended =>
    match ctrl1 with
    | .pending => .ok (.pending, .suspended)
    | .ready (some .park) => .ok (.pending, .suspended)
    | .ready (some .unpark) => .ok (Park.pollActive ctrl2 srcP)
    | .ready none => .ok (Park.pollNoChannel srcP)
  | .active => .ok (Park.pollActive ctrl1 srcP)
  | .noChannel => .ok (Park.pollNoChannel srcP)
  | .completed => .error ()

/-! ## The `block_on` polling loop (`src/runtime/block_on.rs:32-46`) -/

/-- An abstract top-level future for the executor model: a deterministic
state machine over states `Nat`.  `poll s` returns the poll result, the
successor state, and whether the future invoked the root waker (the only
waker in scope) during this poll. -/
abbrev FutureMachine := Nat → Poll Nat × Nat × Bool

/-- Embeds `block_on`'s driving loop together with `RootWaker`
(`src/runtime/block_on.rs:32-76`): poll the future; on `Ready` return; on
`Pending`, if the root waker was marked awake, reset the flag and poll
again immediately, otherwise call `reactor.block_on_pollables()` (counted
in `blocks`; the host wakeup marks the root waker awake for any waker it
wakes, all of which are clones of the root waker).  `fuel` bounds the
number of polls; `none` means the fuel ran out. -/
def blockOnLoop (f : FutureMachine) : Nat → Nat → Bool → Nat → Option (Nat × Nat)
  | 0, _, _, _ => none
  | fuel + 1, s, awake, blocks =>
    let r := f s
    let awake1 := awake || r.2.2
    match r.1 with
    | .ready v => some (v, blocks)
    | .pending =>
      if awake1 then blockOnLoop f fuel r.2.1 false blocks
      else blockOnLoop f fuel r.2.1 true (blocks + 1)

/-- A sample self-waking top-level future for the executor model: pending on
its first poll (invoking the root waker, like
`futures_lite::future::poll_fn` in the `progresses_wasi_independent_futures`
test), ready with `7` on the next. -/
def sampleSelfWaking : FutureMachine :=
  fun s => if s = 0 then (.pending, 1, true) else (.ready 7, s, false)

/-! ## Theorems -/

/-- Helper: removing a waitee from the waker map leaves no entry for it. -/
theorem containsW_removeW (m : WakerMap) (w : Waitee) :
    WakerMap.containsW (WakerMap.removeW m w) w = false := by
  unfold WakerMap.containsW WakerMap.removeW
  rw [List.any_eq_false]
  rintro ⟨a, b⟩ hmem
  have h := (List.mem_filter.mp hmem).2
  simpa using h

/-- C1 counterexample: a `WaitFor` polled while the pollable is not ready
parks its waker; a later poll that observes readiness returns `Ready(())`
but the `Waitee` entry is still in `pending_wakers` — contradicting the
claim that the entry is removed as soon as a poll observes readiness. -/
theorem c1_stale_waker_counterexample :
    WaitFor.poll ⟨⟨0, 0⟩, false⟩ [] 7 false
      = (Poll.pending, ⟨⟨0, 0⟩, true⟩, [(⟨0, 0⟩, 7)]) ∧
    WaitFor.poll ⟨⟨0, 0⟩, true⟩ [(⟨0, 0⟩, 7)] 7 true
      = (Poll.ready (), ⟨⟨0, 0⟩, true⟩, [(⟨0, 0⟩, 7)]) ∧
    WakerMap.containsW (WaitFor.poll ⟨⟨0, 0⟩, true⟩ [(⟨0, 0⟩, 7)] 7 true).2.2 ⟨0, 0⟩
      = true := by
  decide

/-- C1 (amended): a poll of `WaitFor` that observes readiness returns
`Ready(())` immediately and leaves the waker map unchanged — in particular
it does not remove a previously parked entry; a poll that observes
non-readiness parks the waker and sets `needs_deregistration`; the `Waitee`
entry is removed when the future is dropped (its `needs_deregistration`
flag set), so no waker entry for the waitee persists after the drop. -/
theorem c1_waitee_removed_on_drop :
    (∀ (wf : WaitFor) (m : WakerMap) (waker : Nat),
      WaitFor.poll wf m waker true = (Poll.ready (), wf, m)) ∧
    (∀ (wf : WaitFor) (m : WakerMap) (waker : Nat),
      WaitFor.poll wf m waker false
        = (Poll.pending, ⟨wf.waitee, true⟩, m.insertW wf.waitee waker)) ∧
    (∀ (w : Waitee) (m : WakerMap),
      WakerMap.containsW (WaitFor.drop ⟨w, true⟩ m) w = false) := by
  refine ⟨fun _ _ _ => rfl, fun _ _ _ => rfl, fun w m => ?_⟩
  exact containsW_removeW m w

/-- C2 counterexample: with `debug_assertions` off (a release build),
`block_on_pollables` on an empty pending-waker map does not fail the
assertion — it proceeds to issue the host batch poll on an empty target
list, contradicting the claim that it fails loudly in every build
configuration. -/
theorem c2_release_empty_counterexample :
    Reactor.block_on_pollables false [] = BlockOutcome.hostPoll [] ∧
    Reactor.block_on_pollables false [] ≠ BlockOutcome.panicEmptyAssert := by
  decide

/-- C2 (amended): the empty-pending-set check is a `debug_assert_ne!`: in a
debug build an empty waker map fails the assertion before the host poll,
but in a release build the check is compiled out and the empty batch poll
is issued to the host (which traps there); non-empty maps always proceed to
the host poll on the collected targets. -/
theorem c2_empty_wait_debug_assert :
    Reactor.block_on_pollables true [] = BlockOutcome.panicEmptyAssert ∧
    (∀ m : WakerMap, Reactor.block_on_pollables false m
      = BlockOutcome.hostPoll (m.map fun p => p.1.key)) ∧
    (∀ (p : Waitee × Nat) (m : WakerMap), Reactor.block_on_pollables true (p :: m)
      = BlockOutcome.hostPoll ((p :: m).map fun q => q.1.key)) := by
  exact ⟨rfl, fun _ => rfl, fun _ _ => rfl⟩

/-- C3 counterexample: when the driven future panics, `block_on` unwinds
without reaching `REACTOR.replace(None)`, so the process-wide slot still
holds the new reactor — contradicting the claim that the slot is cleared
unconditionally on exit. -/
theorem c3_panic_leaves_slot_counterexample :
    block_on (α := Nat) none 0 FutureRun.panics = (RunOutcome.futurePanic, some 0) ∧
    (block_on (α := Nat) none 0 FutureRun.panics).2 ≠ none := by
  decide

/-- C3 (amended): `block_on` clears the active-reactor slot on the normal
return path only; when the driven future panics and unwinds, the
`REACTOR.replace(None)` teardown is never executed and the slot is left
holding the reactor installed by this call. -/
theorem c3_slot_cleared_on_normal_exit :
    ∀ (α : Type) (r : Nat) (v : α),
      block_on none r (FutureRun.completes v) = (RunOutcome.returns v, none) ∧
      block_on none r (FutureRun.panics : FutureRun α) = (RunOutcome.futurePanic, some r) := by
  exact fun _ _ _ => ⟨rfl, rfl⟩

/-- C4 counterexample: when the host read returns `Ok` of zero bytes
(readiness does not guarantee data), `AsyncInputStream::read` loops and
performs a second readiness wait and a second host read before returning —
contradicting the claim of exactly one read call per `read` invocation. -/
theorem c4_two_reads_counterexample :
    AsyncInputStream.read [.ok [], .ok [42]] = (some (.ok [42]), 2) ∧
    (AsyncInputStream.read [.ok [], .ok [42]]).2 ≠ 1 :=
  ⟨rfl, by decide⟩

/-- C4 (amended): each iteration of `AsyncInputStream::read` awaits
readiness and then performs exactly one host read, but the loop repeats
whenever the host read returns zero bytes: the total number of host reads
is one per leading empty `Ok` response plus one for the terminating
response. -/
theorem c4_one_read_per_readiness_wait :
    ∀ evs : List ReadEvent,
      (AsyncInputStream.read evs).2
        = leadingEmptyReads evs
          + (if (AsyncInputStream.read evs).1.isSome then 1 else 0) := by
  intro evs
  induction evs with
  | nil => rfl
  | cons e rest ih =>
    cases e with
    | ok bs =>
      cases bs with
      | nil =>
        simp only [AsyncInputStream.read, leadingEmptyReads]
        omega
      | cons b bs => simp [AsyncInputStream.read, leadingEmptyReads]
    | closed => simp [AsyncInputStream.read, leadingEmptyReads]
    | lastOpFailed e => simp [AsyncInputStream.read, leadingEmptyReads]

/-- C5: `AsyncInputStream::read` maps a host-reported `Closed` stream to
`Ok(0)` (an empty byte result), never an error, and returns an `Err`
exactly when the loop terminates on a host `LastOperationFailed`;
`AsyncOutputStream::write` maps `Closed` — whether reported by
`check_write` or by the `write` itself — to a `ConnectionReset` error and
`LastOperationFailed` to an `other` error. -/
theorem c5_closed_and_failure_mapping :
    (∀ rest : List ReadEvent,
      AsyncInputStream.read (.closed :: rest) = (some (.ok []), 1)) ∧
    (∀ evs : List ReadEvent,
      (∃ e, (AsyncInputStream.read evs).1 = some (.error e))
        ↔ readEndsInFailure evs = true) ∧
    (∀ (bufLen : Nat) (w : WriteRes) (rest : List WriteStep),
      AsyncOutputStream.write bufLen (⟨.closed, w⟩ :: rest)
        = some (.error .connectionReset)) ∧
    (∀ (bufLen b : Nat) (rest : List WriteStep),
      AsyncOutputStream.write bufLen (⟨.ok (b + 1), .closed⟩ :: rest)
        = some (.error .connectionReset)) ∧
    (∀ (bufLen e : Nat) (w : WriteRes) (rest : List WriteStep),
      AsyncOutputStream.write bufLen (⟨.lastOpFailed e, w⟩ :: rest)
        = some (.error (.other e))) ∧
    (∀ (bufLen b e : Nat) (rest : List WriteStep),
      AsyncOutputStream.write bufLen (⟨.ok (b + 1), .lastOpFailed e⟩ :: rest)
        = some (.error (.other e))) := by
  refine ⟨fun _ => rfl, ?_, fun _ _ _ => rfl, fun _ _ _ => rfl,
    fun _ _ _ _ => rfl, fun _ _ _ _ => rfl⟩
  intro evs
  induction evs with
  | nil => simp [AsyncInputStream.read, readEndsInFailure]
  | cons e rest ih =>
    cases e with
    | ok bs =>
      cases bs with
      | nil => simpa [AsyncInputStream.read, readEndsInFailure] using ih
      | cons b bs => simp [AsyncInputStream.read, readEndsInFailure]
    | closed => simp [AsyncInputStream.read, readEndsInFailure]
    | lastOpFailed e => simp [AsyncInputStream.read, readEndsInFailure]

/-- C6: `Timeout(Delay(value, a), b)` run under the reactor schedule
resolves to the `TimedOut` error whenever the timeout deadline `b` is
strictly earlier than the delay deadline `a`, and to `Ok(value)` whenever
the delay deadline is at or before the timeout deadline; the claimed
100ms/50ms and 50ms/100ms instances are the witness below. -/
theorem c6_timeout_race :
    ∀ (v a b : Nat),
      (b < a → TimeoutDelay.run v a b = some (.error .timedOut)) ∧
      (a ≤ b → TimeoutDelay.run v a b = some (.ok v)) := by
  intro v a b
  constructor
  · intro h
    obtain ⟨a1, rfl⟩ : ∃ a1, a = a1 + 1 := ⟨a - 1, by omega⟩
    rcases b with _ | b1
    · simp [TimeoutDelay.run, TimeoutDelay.init, TimeoutDelay.poll,
        TimeoutDelay.pollDelay, Sleep.poll, Delay.poll]
    · have hna : ¬ (a1 + 1 ≤ min (a1 + 1) (b1 + 1)) := by omega
      have hb : b1 + 1 ≤ min (a1 + 1) (b1 + 1) := by omega
      simp [TimeoutDelay.run, TimeoutDelay.init, TimeoutDelay.poll,
        TimeoutDelay.pollDelay, Sleep.poll, Delay.poll, hna, hb]
  · intro h
    rcases a with _ | a1
    · simp [TimeoutDelay.run, TimeoutDelay.init, TimeoutDelay.poll,
        TimeoutDelay.pollDelay, Sleep.poll, Delay.poll]
    · obtain ⟨b1, rfl⟩ : ∃ b1, b = b1 + 1 := ⟨b - 1, by omega⟩
      have ha : a1 + 1 ≤ min (a1 + 1) (b1 + 1) := by omega
      simp [TimeoutDelay.run, TimeoutDelay.init, TimeoutDelay.poll,
        TimeoutDelay.pollDelay, Sleep.poll, Delay.poll, ha]

/-- C6 witness: `Delay(42, 100).Timeout(50)` resolves as timed out and
`Delay(42, 50).Timeout(100)` resolves with the value. -/
theorem c6_timeout_race_witness :
    TimeoutDelay.run 42 100 50 = some (.error .timedOut) ∧
    TimeoutDelay.run 42 50 100 = some (.ok 42) :=
  ⟨(c6_timeout_race 42 100 50).1 (by decide),
   (c6_timeout_race 42 50 100).2 (by decide)⟩

/-- C7: every time combinator panics when polled after yielding its
terminal value.  For each of Delay, Timeout, Debounce, Throttle, Sample,
Buffer and Park: the poll that yields the terminal value moves the state
machine into its terminal state, and any further poll in that state panics
(`.error ()`) instead of returning a value, for all possible inner-stream
and timer inputs. -/
theorem c7_poll_after_completion_panics :
    (∀ (dP : Poll Unit) (v : Nat),
      Delay.poll .pollFuture dP (.ready v) = .ok (.ready v, .completed)) ∧
    (∀ (dP : Poll Unit) (iP : Poll Nat),
      Delay.poll .completed dP iP = .error ()) ∧
    (∀ (v : Nat) (dP : Poll Unit),
      Timeout.poll false (.ready v) dP = .ok (.ready (.ok v), true)) ∧
    (∀ (iP : Poll Nat) (dP : Poll Unit),
      Timeout.poll true iP dP = .error ()) ∧
    (∀ (w t : Nat) (slot : Option Nat) (dl : Sleep) (srcP : Poll (Option Nat)),
      Debounce.poll_next w t ⟨slot, dl, .sendingNone⟩ srcP
        = .ok (.ready none, ⟨slot, dl, .finished⟩)) ∧
    (∀ (w t : Nat) (slot : Option Nat) (dl : Sleep) (srcP : Poll (Option Nat)),
      Debounce.poll_next w t ⟨slot, dl, .finished⟩ srcP = .error ()) ∧
    (∀ (budget : Nat) (pass : List Nat) (ends : Bool) (ivP : Poll Unit),
      Throttle.poll_next budget .streamDone pass ends ivP
        = .ok (.ready none, .allDone)) ∧
    (∀ (budget : Nat) (pass : List Nat) (ends : Bool) (ivP : Poll Unit),
      Throttle.poll_next budget .allDone pass ends ivP = .error ()) ∧
    (∀ (slot : Option Nat) (pass : List Nat) (ends : Bool) (ivP : Poll Unit),
      Sample.poll_next .streamDone slot pass ends ivP
        = .ok (.ready none, .allDone, slot)) ∧
    (∀ (slot : Option Nat) (pass : List Nat) (ends : Bool) (ivP : Poll Unit),
      Sample.poll_next .allDone slot pass ends ivP = .error ()) ∧
    (∀ (slot pass : List Nat) (ends : Bool) (ivP : Poll Unit),
      Buffer.poll_next .timerDone slot pass ends ivP
        = .ok (.ready none, .allDone, slot)) ∧
    (∀ (slot pass : List Nat) (ends : Bool) (ivP : Poll Unit),
      Buffer.poll_next .allDone slot pass ends ivP = .error ()) ∧
    (∀ (c2 : Poll (Option Parker)),
      Park.poll_next (α := Nat) .active .pending c2 (.ready none)
        = .ok (.ready none, .completed)) ∧
    (∀ (c1 c2 : Poll (Option Parker)) (srcP : Poll (Option Nat)),
      Park.poll_next .completed c1 c2 srcP = .error ()) := by
  refine ⟨fun _ _ => rfl, fun _ _ => rfl, fun _ _ => rfl, fun _ _ => rfl,
    fun _ _ _ _ _ => rfl, fun _ _ _ _ _ => rfl, fun _ _ _ _ => rfl, fun _ _ _ _ => rfl,
    fun _ _ _ _ => rfl, fun _ _ _ _ => rfl, fun _ _ _ _ => rfl, fun _ _ _ _ => rfl,
    fun _ => rfl, fun _ _ _ => rfl⟩

/-- C8: the debounce flush law.  A source of 10 items spaced 10ms apart
debounced with a 20ms window emits exactly one item — the last one, fired
at t = 100 and flushed through the `FinalItem` end-of-stream path after the
timer fires; a source of 10 items spaced 40ms apart debounced with a 10ms
window emits all 10 items. -/
theorem c8_debounce_flush_law :
    debounceScenario 10 20 10 600 = some [100] ∧
    debounceScenario 40 10 10 600
      = some [40, 80, 120, 160, 200, 240, 280, 320, 360, 400] := by
  constructor
  · decide
  · decide

/-- C9: in `Timeout::poll` the inner future is polled before the deadline
is consulted: whenever the inner future is ready, the output is `Ok` of its
value regardless of the deadline poll result (in particular when the
deadline is ready in the same poll); the deadline produces the `TimedOut`
error only when the inner future reported pending. -/
theorem c9_inner_polled_before_deadline :
    (∀ (v : Nat) (dP : Poll Unit),
      Timeout.poll false (.ready v) dP = .ok (.ready (.ok v), true)) ∧
    Timeout.poll (α := Nat) false .pending (.ready ())
      = .ok (.ready (.error .timedOut), true) := by
  exact ⟨fun _ _ => rfl, rfl⟩

/-- Helper: a future that wakes the root waker at every pending poll is
driven to completion by `block_on` without a single
`reactor.block_on_pollables()` call. -/
theorem blockOnLoop_selfwaking_no_blocks (f : FutureMachine) :
    ∀ (fuel s v n : Nat),
      (∀ u, (f u).1 = Poll.pending → (f u).2.2 = true) →
      blockOnLoop f fuel s false 0 = some (v, n) → n = 0 := by
  intro fuel
  induction fuel with
  | zero =>
    intro s v n _ h
    simp [blockOnLoop] at h
  | succ fuel ih =>
    intro s v n hwake h
    rcases hr : f s with ⟨p, s1, woke⟩
    cases p with
    | ready v1 =>
      simp [blockOnLoop, hr] at h
      omega
    | pending =>
      have hw : woke = true := by
        have hs := hwake s
        rw [hr] at hs
        exact hs rfl
      subst hw
      simp [blockOnLoop, hr] at h
      exact ih s1 v n hwake h

/-- C10: when the top-level future returns `Pending` but woke the root
waker during that poll, `block_on` resets the wake flag and polls again
immediately — the loop step is exactly a re-poll with the flag cleared and
no `block_on_pollables` call; consequently a future that signals readiness
in-process at every pending poll runs to completion with zero host blocking
calls. -/
theorem c10_root_waker_fast_path :
    ∀ (f : FutureMachine) (fuel s s1 blocks v n : Nat),
      (f s = (Poll.pending, s1, true) →
        blockOnLoop f (fuel + 1) s false blocks = blockOnLoop f fuel s1 false blocks) ∧
      ((∀ u, (f u).1 = Poll.pending → (f u).2.2 = true) →
        blockOnLoop f fuel s false 0 = some (v, n) → n = 0) := by
  intro f fuel s s1 blocks v n
  constructor
  · intro h
    simp [blockOnLoop, h]
  · exact blockOnLoop_selfwaking_no_blocks f fuel s v n

/-- C10 witness: the sample self-waking future makes the fast-path step and
completes with zero host blocking calls. -/
theorem c10_root_waker_fast_path_witness :
    blockOnLoop sampleSelfWaking 3 0 false 0 = blockOnLoop sampleSelfWaking 2 1 false 0 ∧
    (0 : Nat) = 0 :=
  ⟨(c10_root_waker_fast_path sampleSelfWaking 2 0 1 0 7 0).1 (by decide),
   (c10_root_waker_fast_path sampleSelfWaking 3 0 1 0 7 0).2
     (fun u hu => by
       by_cases h : u = 0
       · simp [sampleSelfWaking, h]
       · simp [sampleSelfWaking, h] at hu)
     (by decide)⟩

end Wstd
